import Mathlib

/-!
Verification development for the client-side control surface in
`src/static/app.js` (CoplanarWaveguideResonators).

Shallow embedding conventions:
* JS numbers are modelled as exact rationals (`ℚ`); the arithmetic the
  claims exercise (halving, scaling by 3/2, dividing a span by 100,
  `Math.round`) is exact on the inputs considered.
* The text content of a numeric `<input>` is either the empty string or a
  number; `ControlVal` captures exactly these two states.
* The DOM panels (one `.param` wrapper per parameter, each holding a label,
  a number input and a mirrored slider showing the same value) are modelled
  as association lists from parameter name to `ControlVal`.
* `null`/`undefined` JSON fields are modelled with `Option`.
-/

namespace CPW

/-- A parameter definition as delivered by the options endpoint:
`{default?, min?, max?, step?}`, every field possibly absent
(`undefined`/`null` both map to `none`). -/
structure ParamDefn where
  default : Option ℚ := none
  min : Option ℚ := none
  max : Option ℚ := none
  step : Option ℚ := none
deriving DecidableEq, Repr

/-- The inferred `{min, max, step, default}` returned by `_computeRange`. -/
structure RangeSpec where
  min : ℚ
  max : ℚ
  step : ℚ
  default : ℚ
deriving DecidableEq, Repr

/-- `Math.round` in JS: round half toward positive infinity. -/
def jsRound (q : ℚ) : ℚ := (⌊q + 1 / 2⌋ : ℤ)

/-- `Math.max` on two numbers. -/
def jsMax (a b : ℚ) : ℚ := if a ≤ b then b else a

/-- `Math.abs`. -/
def jsAbs (a : ℚ) : ℚ := if a < 0 then -a else a

/-- `Math.max` agrees with the lattice `max` on `ℚ`. -/
lemma jsMax_eq_max (a b : ℚ) : jsMax a b = max a b := by
  rw [jsMax, max_def]

/-- `Math.abs` agrees with `|·|` on `ℚ`. -/
lemma jsAbs_eq_abs (a : ℚ) : jsAbs a = |a| := by
  rw [jsAbs]
  rcases lt_or_le a 0 with h | h
  · rw [if_pos h, abs_of_neg h]
  · rw [if_neg (not_lt.mpr h), abs_of_nonneg h]

/-- `d = (defn && defn.default !== undefined) ? Number(defn.default) : 0`
(app.js line 17). -/
def defnDefault (defn : Option ParamDefn) : ℚ :=
  match defn with
  | some f => f.default.getD 0
  | none => 0

/-- `min` read at app.js line 18 (`undefined` and `null` both give absent). -/
def defnMin (defn : Option ParamDefn) : Option ℚ := defn.bind ParamDefn.min

/-- `max` read at app.js line 19. -/
def defnMax (defn : Option ParamDefn) : Option ℚ := defn.bind ParamDefn.max

/-- `step` read at app.js line 20. -/
def defnStep (defn : Option ParamDefn) : Option ℚ := defn.bind ParamDefn.step

/-- The bounds heuristic of app.js lines 22-34, taken when `min` or `max`
is absent: branch on the sign of the default `d`. -/
def computeBounds (d : ℚ) : ℚ × ℚ :=
  if d = 0 then (-1, 1)
  else if 0 < d then (jsMax (d * (1 / 100)) (d * (1 / 2)), d * (3 / 2))
  else
    let mn := d * (3 / 2)
    let mx := d * (1 / 2)
    if mn > mx then (mx, mn) else (mn, mx)

/-- The step heuristic of app.js lines 36-43, taken when `step` is absent
or zero.  `Number.isInteger q` is `q.den = 1` on reduced rationals. -/
def computeStep (d mn mx : ℚ) : ℚ :=
  let span := jsAbs (mx - mn)
  if span = 0 then (if jsAbs d / 100 = 0 then 1 / 1000000 else jsAbs d / 100)
  else
    let step := span / 100
    if mn.den = 1 ∧ mx.den = 1 ∧ 1 ≤ jsAbs step then jsMax 1 (jsRound step) else step

/-- `_computeRange` (app.js lines 16-46). -/
def _computeRange (defn : Option ParamDefn) : RangeSpec :=
  let d := defnDefault defn
  let bounds : ℚ × ℚ :=
    match defnMin defn, defnMax defn with
    | some m, some M => (m, M)
    | _, _ => computeBounds d
  let step :=
    match defnStep defn with
    | some s => if s = 0 then computeStep d bounds.1 bounds.2 else s
    | none => computeStep d bounds.1 bounds.2
  { min := bounds.1, max := bounds.2, step := step, default := d }

/-- The two visible states of a numeric input control: empty text, or a
numeric value (the number input and its mirrored slider always show the
same value, so one `ControlVal` per parameter suffices). -/
inductive ControlVal where
  | empty : ControlVal
  | num : ℚ → ControlVal
deriving DecidableEq, Repr

/-- A parameter panel: one entry per `.param` wrapper, in DOM order. -/
abbrev Panel := List (String × ControlVal)

/-- One option of a category: `{parameters: {name: defn, ...}}`. -/
structure OptionEntry where
  parameters : List (String × ParamDefn)
deriving DecidableEq, Repr

/-- A category map, key to option entry (insertion ordered). -/
abbrev OptionsMap := List (String × OptionEntry)

/-- `collectParams` (app.js lines 131-145): read each control; the empty
string becomes `null` (`none`), anything else its numeric value. -/
def collectParams (container : Panel) : List (String × Option ℚ) :=
  container.map fun item =>
    (item.1, match item.2 with
             | ControlVal.empty => none
             | ControlVal.num q => some q)

/-- `copyParamValues` (app.js lines 148-164): for each destination control
whose name appears in the source with a non-null collected value, overwrite
the destination value (number input and slider together). -/
def copyParamValues (srcContainer dstContainer : Panel) : Panel :=
  let src := collectParams srcContainer
  dstContainer.map fun item =>
    match src.lookup item.1 with
    | some (some q) => (item.1, ControlVal.num q)
    | _ => item

/-- `renderParamsFor` (app.js lines 109-118) together with
`createParamControl` (lines 51-103): clear the container and rebuild one
control per declared parameter, its value seeded from the definition
default when present and `0` otherwise (line 70, where the absent-default
fallback `r.default` is `0`).  The select value and target container of the
JS function become the `key` argument and the returned panel. -/
def renderParamsFor (optionsMap : OptionsMap) (key : String) : Panel :=
  let params :=
    match optionsMap.lookup key with
    | some entry => entry.parameters
    | none => []
  params.map fun p => (p.1, ControlVal.num (p.2.default.getD 0))

/-- A user edit to one control of a panel: typing in the number input (or
dragging the slider) replaces that control value; clearing the field
leaves `ControlVal.empty`. -/
def editControl (panel : Panel) (name : String) (v : ControlVal) : Panel :=
  panel.map fun p => if p.1 = name then (p.1, v) else p

/-- `debounce(fn, wait)` (app.js lines 8-14), run over a timeline.  The
input list holds the notifications in time order, each carrying the state
of the world (DOM/store) at the instant it fires — the edit that triggers
`notify` has already been applied.  `pending` is the live `setTimeout`
deadline, `store` the state of the world since the last notification.  A
pending action fires (emitting `fn` of the CURRENT state, read at fire
time) when its deadline precedes the next notification; a notification
arriving earlier runs `clearTimeout` and schedules a fresh deadline one
`wait` later. -/
def runDebounce {α β : Type} (wait : Nat) (fn : α → β) :
    List (Nat × α) → Option Nat → α → List (Nat × β)
  | [], pending, store =>
    match pending with
    | none => []
    | some tf => [(tf, fn store)]
  | (t, v) :: rest, pending, store =>
    match pending with
    | some tf =>
      if tf ≤ t then (tf, fn store) :: runDebounce wait fn rest (some (t + wait)) v
      else runDebounce wait fn rest (some (t + wait)) v
    | none =>
      runDebounce wait fn rest (some (t + wait)) v

/-- A burst: time-stamps strictly increase and each notification arrives
strictly less than `wait` after the previous one. -/
def burstB {α : Type} (wait : Nat) : List (Nat × α) → Bool
  | [] => true
  | [_] => true
  | (t1, _) :: (t2, v2) :: rest =>
    decide (t1 < t2) && decide (t2 < t1 + wait) && burstB wait ((t2, v2) :: rest)

/-- The four-category options catalog delivered by the options endpoint
(`defaults` omitted: initialization is outside the claims). -/
structure OptionsCatalog where
  transition_lines : OptionsMap
  capacitor_couplings : OptionsMap
  substrates : OptionsMap
deriving DecidableEq, Repr

/-- One Plotly trace as this code builds them (`type`/`mode` constants and
the categorical bar labels are presentation and omitted). -/
structure Trace where
  name : String
  x : List ℚ
  y : List ℚ
deriving DecidableEq, Repr

/-- The five scalar readouts (`w1 f1 q_i q_e q_tot` DOM slots); `none`
renders as the placeholder dash. -/
structure Display where
  w1 : Option ℚ
  f1 : Option ℚ
  q_internal : Option ℚ
  q_external : Option ℚ
  q_total : Option ℚ
deriving DecidableEq, Repr

/-- `plot_data` of a simulation response. -/
structure PlotData where
  x : List ℚ
  y : List ℚ
  x_label : String
  y_label : String
deriving DecidableEq, Repr

/-- The `getters` blob of a response: opaque name/value readouts, not
interpreted beyond being rendered (modelled as the rendered content). -/
abbrev Getters := List (String × String)

/-- A parsed simulation response body. -/
structure SimData where
  error : Option String := none
  w1 : Option ℚ := none
  f1 : Option ℚ := none
  q_internal : Option ℚ := none
  q_external : Option ℚ := none
  q_total : Option ℚ := none
  plot_data : Option PlotData := none
  getters : Option Getters := none
deriving DecidableEq, Repr

/-- Outcome of the `fetch` at app.js line 268: a transport/parse failure
(the `catch` at lines 397-399) or a parsed body. -/
inductive FetchResult where
  | fail : FetchResult
  | ok : SimData → FetchResult
deriving DecidableEq, Repr

/-- The JSON payload assembled at app.js lines 254-265. -/
structure Payload where
  transition_line : String
  input_coupling : String
  output_coupling : String
  substrate : String
  transition_line_params : List (String × Option ℚ)
  input_coupling_params : List (String × Option ℚ)
  output_coupling_params : List (String × Option ℚ)
  substrate_params : List (String × Option ℚ)
  n : Int
  plot_type : String
deriving DecidableEq, Repr

/-- The mutable state `main` works over: the four selects plus the
symmetric select, the checkbox, the five parameter panels, the mode
control content (as its `parseInt` result), the module-level
`currentPlotType` and `lorentzianTraces`, the plot div traces, the scalar
display and the last rendered getters. -/
structure AppState where
  opts : OptionsCatalog
  tSel : String
  inSel : String
  outSel : String
  sSel : String
  symSel : String
  symmetricChecked : Bool
  tPanel : Panel
  inPanel : Panel
  outPanel : Panel
  sPanel : Panel
  symPanel : Panel
  modeVal : Option Int
  currentPlotType : String
  lorentzianTraces : List Trace
  plotDivData : List Trace
  display : Display
  lastGetters : Option Getters
deriving DecidableEq, Repr

/-- `parseInt(x) || 1` (app.js lines 225 and 473): `NaN` (no parse) and
`0` are falsy, so both yield `1`. -/
def parseIntOr1 (parsed : Option Int) : Int :=
  match parsed with
  | none => 1
  | some v => if v = 0 then 1 else v

/-- The clamp of app.js line 474: `if (v < 1) v = 1; if (v > 10) v = 10`. -/
def clamp1to10 (v : Int) : Int :=
  if v < 1 then 1 else if v > 10 then 10 else v

/-- `modeNumber` input handler (app.js lines 472-476): parse (with the
`|| 1` fallback), clamp to [1,10], write back into both controls. -/
def handleModeNumberInput (st : AppState) (parsed : Option Int) : AppState :=
  { st with modeVal := some (clamp1to10 (parseIntOr1 parsed)) }

/-- Modelled from the spec: the slider half of the mode pair
(`mode_n_range`) is declared in `index.html`, which is not under `src/`;
per the spec the control is an "integer 1-10, numeric+slider pair" (I4),
so the browser confines the slider value to integers in [1, 10]. -/
def modeSliderClamp (v : Int) : Int := max 1 (min 10 v)

/-- `modeRange` input handler (app.js lines 477-479): copy the slider
value (browser-clamped per `modeSliderClamp`) into the number input. -/
def handleModeRangeInput (st : AppState) (sliderVal : Int) : AppState :=
  { st with modeVal := some (modeSliderClamp sliderVal) }

/-- `tSelect` change handler (app.js line 414): the select now holds the
new key; re-render the transition panel. -/
def handleTSelectChange (st : AppState) (k : String) : AppState :=
  { st with tSel := k, tPanel := renderParamsFor st.opts.transition_lines k }

/-- `sSelect` change handler (app.js line 452). -/
def handleSSelectChange (st : AppState) (k : String) : AppState :=
  { st with sSel := k, sPanel := renderParamsFor st.opts.substrates k }

/-- `inSelect` change handler (app.js lines 416-425): re-render the input
panel; when symmetric is on, re-target the symmetric select, re-render the
symmetric panel and copy the (freshly re-rendered) input values into it. -/
def handleInSelectChange (st : AppState) (k : String) : AppState :=
  let inPanel1 := renderParamsFor st.opts.capacitor_couplings k
  if st.symmetricChecked then
    let symPanel1 := renderParamsFor st.opts.capacitor_couplings k
    { st with inSel := k, inPanel := inPanel1, symSel := k,
              symPanel := copyParamValues inPanel1 symPanel1 }
  else
    { st with inSel := k, inPanel := inPanel1 }

/-- `outSelect` change handler (app.js lines 427-436), mirror image. -/
def handleOutSelectChange (st : AppState) (k : String) : AppState :=
  let outPanel1 := renderParamsFor st.opts.capacitor_couplings k
  if st.symmetricChecked then
    let symPanel1 := renderParamsFor st.opts.capacitor_couplings k
    { st with outSel := k, outPanel := outPanel1, symSel := k,
              symPanel := copyParamValues outPanel1 symPanel1 }
  else
    { st with outSel := k, outPanel := outPanel1 }

/-- `symmetricSelect` change handler (app.js lines 438-450): sync all
three selects to the new key, re-render the three coupling panels, then
copy the symmetric values into the hidden input and output panels. -/
def handleSymSelectChange (st : AppState) (k : String) : AppState :=
  let symPanel1 := renderParamsFor st.opts.capacitor_couplings k
  let inPanel1 := renderParamsFor st.opts.capacitor_couplings k
  let outPanel1 := renderParamsFor st.opts.capacitor_couplings k
  { st with symSel := k, inSel := k, outSel := k,
            symPanel := symPanel1,
            inPanel := copyParamValues symPanel1 inPanel1,
            outPanel := copyParamValues symPanel1 outPanel1 }

/-- `symmetricCheckbox` change handler (app.js lines 454-469).  The
checkbox has just been toggled, so the handler sees the NEW checked value.
Checked: target the symmetric select at the input key, re-render the
symmetric panel and copy the current input values into it.  Unchecked:
re-render both independent panels from their definitions (no value is
copied back from the symmetric panel). -/
def handleSymmetricToggle (st : AppState) : AppState :=
  if !st.symmetricChecked then
    let symPanel1 := renderParamsFor st.opts.capacitor_couplings st.inSel
    { st with symmetricChecked := true, symSel := st.inSel,
              symPanel := copyParamValues st.inPanel symPanel1 }
  else
    { st with symmetricChecked := false,
              inPanel := renderParamsFor st.opts.capacitor_couplings st.inSel,
              outPanel := renderParamsFor st.opts.capacitor_couplings st.outSel }

/-- Edits to individual panels (the per-control input listeners created in
`createParamControl`, app.js lines 72-76 and 88-91). -/
def handleTPanelEdit (st : AppState) (name : String) (v : ControlVal) : AppState :=
  { st with tPanel := editControl st.tPanel name v }

/-- Edit on the input coupling panel. -/
def handleInPanelEdit (st : AppState) (name : String) (v : ControlVal) : AppState :=
  { st with inPanel := editControl st.inPanel name v }

/-- Edit on the output coupling panel. -/
def handleOutPanelEdit (st : AppState) (name : String) (v : ControlVal) : AppState :=
  { st with outPanel := editControl st.outPanel name v }

/-- Edit on the mirrored symmetric panel. -/
def handleSymPanelEdit (st : AppState) (name : String) (v : ControlVal) : AppState :=
  { st with symPanel := editControl st.symPanel name v }

/-- Edit on the substrate panel. -/
def handleSPanelEdit (st : AppState) (name : String) (v : ControlVal) : AppState :=
  { st with sPanel := editControl st.sPanel name v }

/-- `saveLorentzianBtn` click handler (app.js lines 503-509): find the
trace named Current in the plot div data; when present, push a renamed
copy onto `lorentzianTraces`. -/
def handleSaveClick (st : AppState) : AppState :=
  match st.plotDivData.find? (fun t => t.name == ("Current")) with
  | some tr =>
    { st with lorentzianTraces :=
        st.lorentzianTraces ++
          [{ tr with name := ("Saved ") ++ toString (st.lorentzianTraces.length + 1) }] }
  | none => st

/-- `clearLorentzianBtn` click handler (app.js line 510). -/
def handleClearClick (st : AppState) : AppState :=
  { st with lorentzianTraces := [] }

/-- The request-snapshot half of `doSimulate` (app.js lines 224-265): the
payload, plus the state after the build (in the symmetric branch the
hidden selects are overwritten with the symmetric key, lines 247-248). -/
def buildSnapshot (st : AppState) : Payload × AppState :=
  let n := parseIntOr1 st.modeVal
  let transitionParams := collectParams st.tPanel
  let substrateParams := collectParams st.sPanel
  if st.symmetricChecked then
    let symName := st.symSel
    let inputParams := collectParams st.symPanel
    ({ transition_line := st.tSel,
       input_coupling := symName,
       output_coupling := symName,
       substrate := st.sSel,
       transition_line_params := transitionParams,
       input_coupling_params := inputParams,
       output_coupling_params := inputParams,
       substrate_params := substrateParams,
       n := n,
       plot_type := st.currentPlotType },
     { st with inSel := symName, outSel := symName })
  else
    ({ transition_line := st.tSel,
       input_coupling := st.inSel,
       output_coupling := st.outSel,
       substrate := st.sSel,
       transition_line_params := transitionParams,
       input_coupling_params := collectParams st.inPanel,
       output_coupling_params := collectParams st.outPanel,
       substrate_params := substrateParams,
       n := n,
       plot_type := st.currentPlotType },
     st)

/-- The trace pushed for a profile response (app.js lines 298-304). -/
def mkCurrentTrace (pd : PlotData) : Trace :=
  { name := ("Current"), x := pd.x, y := pd.y }

/-- JS truthiness of an optional string field: `null`/`undefined` and the
empty string are falsy, every other string is truthy. -/
def jsTruthyStr : Option String → Bool
  | none => false
  | some s => !(s == (""))

/-- The response-reconciliation half of `doSimulate` (app.js lines
267-399): a transport failure is only logged (catch branch); a body with
a truthy `error` field (`if (data.error)`, so the empty string counts as
no error) is only logged and returns before touching the display;
otherwise the five scalars are overwritten, the plot div is redrawn
(quality-factor bar, or the current profile trace — preceded by the saved
traces when the plot type is lorentzian, or nothing without plot data) and
present getters are rendered. -/
def applyResponse (st : AppState) (r : FetchResult) : AppState :=
  match r with
  | FetchResult.fail => st
  | FetchResult.ok data =>
    if jsTruthyStr data.error then st
    else
      let display : Display :=
        { w1 := data.w1, f1 := data.f1, q_internal := data.q_internal,
          q_external := data.q_external, q_total := data.q_total }
      let traces : List Trace :=
        if st.currentPlotType = ("quality_factors") then
          [{ name := (""), x := [],
             y := [data.q_internal.getD 0, data.q_external.getD 0, data.q_total.getD 0] }]
        else
          match data.plot_data with
          | some pd =>
            if st.currentPlotType = ("lorentzian") then
              st.lorentzianTraces ++ [mkCurrentTrace pd]
            else [mkCurrentTrace pd]
          | none => []
      let getters :=
        match data.getters with
        | some g => some g
        | none => st.lastGetters
      { st with display := display, plotDivData := traces, lastGetters := getters }

/-- A one-parameter option entry used by the concrete scenarios: parameter
`p` with the given definition default and no explicit bounds. -/
def demoEntry (q : ℚ) : OptionEntry :=
  { parameters := [(("p"), { default := some q })] }

/-- A small concrete catalog: transition lines `A` (default 1) and `B`
(default 2), couplings `C` (default 1) and `D` (default 2), substrate `S`. -/
def demoOpts : OptionsCatalog :=
  { transition_lines := [(("A"), demoEntry 1), (("B"), demoEntry 2)],
    capacitor_couplings := [(("C"), demoEntry 1), (("D"), demoEntry 2)],
    substrates := [(("S"), demoEntry 1)] }

/-- All five scalar slots at their placeholder. -/
def noDisplay : Display :=
  { w1 := none, f1 := none, q_internal := none, q_external := none, q_total := none }

/-- A concrete post-initialization state over `demoOpts`: selection `A`,
`C`, `C`, `S`, independent mode, panels rendered, mode control at 1. -/
def demoState : AppState :=
  { opts := demoOpts,
    tSel := ("A"), inSel := ("C"), outSel := ("C"), sSel := ("S"), symSel := ("C"),
    symmetricChecked := false,
    tPanel := renderParamsFor demoOpts.transition_lines ("A"),
    inPanel := renderParamsFor demoOpts.capacitor_couplings ("C"),
    outPanel := renderParamsFor demoOpts.capacitor_couplings ("C"),
    sPanel := renderParamsFor demoOpts.substrates ("S"),
    symPanel := [],
    modeVal := some 1,
    currentPlotType := ("lorentzian"),
    lorentzianTraces := [], plotDivData := [],
    display := noDisplay, lastGetters := none }

/-- C1 counterexample: in category transition-line, option `A` has
parameter `p` with default 1.  Edit `p` to 5, switch the selection to `B`,
switch back to `A`: the panel shows the definition default 1, not the
last-written 5 — selection switching does not restore the last-written
values, falsifying the claim at this input. -/
theorem C1_counterexample :
    (handleTSelectChange (handleTSelectChange
        (handleTPanelEdit demoState ("p") (ControlVal.num 5)) ("B")) ("A")).tPanel
      = [(("p"), ControlVal.num 1)] ∧
    (handleTPanelEdit demoState ("p") (ControlVal.num 5)).tPanel
      = [(("p"), ControlVal.num 5)] ∧
    (handleTSelectChange (handleTSelectChange
        (handleTPanelEdit demoState ("p") (ControlVal.num 5)) ("B")) ("A")).tPanel
      ≠ (handleTPanelEdit demoState ("p") (ControlVal.num 5)).tPanel := by
  refine ⟨rfl, rfl, ?_⟩
  decide

/-- C1 (amended): in every category — transition line, input coupling,
output coupling, symmetric coupling, substrate — switching the selection
away and back re-renders the panel from the definition defaults of the
re-selected option; the previously edited values are discarded (there is
no per-option parameter store; values live only in the DOM panel that
`renderParamsFor` clears). -/
theorem C1_switch_rerenders_defaults (st : AppState) (name : String) (v : ControlVal)
    (kB : String) :
    (handleTSelectChange (handleTSelectChange
        (handleTPanelEdit st name v) kB) st.tSel).tPanel
      = renderParamsFor st.opts.transition_lines st.tSel ∧
    (handleInSelectChange (handleInSelectChange
        (handleInPanelEdit st name v) kB) st.inSel).inPanel
      = renderParamsFor st.opts.capacitor_couplings st.inSel ∧
    (handleOutSelectChange (handleOutSelectChange
        (handleOutPanelEdit st name v) kB) st.outSel).outPanel
      = renderParamsFor st.opts.capacitor_couplings st.outSel ∧
    (handleSymSelectChange (handleSymSelectChange
        (handleSymPanelEdit st name v) kB) st.symSel).symPanel
      = renderParamsFor st.opts.capacitor_couplings st.symSel ∧
    (handleSSelectChange (handleSSelectChange
        (handleSPanelEdit st name v) kB) st.sSel).sPanel
      = renderParamsFor st.opts.substrates st.sSel := by
  refine ⟨rfl, ?_, ?_, rfl, rfl⟩
  · by_cases hs : st.symmetricChecked <;>
      simp [handleInSelectChange, handleInPanelEdit, hs]
  · by_cases hs : st.symmetricChecked <;>
      simp [handleOutSelectChange, handleOutPanelEdit, hs]

/-- C2 counterexample: coupling `C` has parameter `p` with default 1.
Enable Symmetric, edit the mirrored panel to `p = 5`, disable Symmetric:
both independent panels show the default 1, not 5 — the mirrored edit is
not copied back, falsifying the claim at this input. -/
theorem C2_counterexample :
    (handleSymmetricToggle (handleSymPanelEdit
        (handleSymmetricToggle demoState) ("p") (ControlVal.num 5))).inPanel
      = [(("p"), ControlVal.num 1)] ∧
    (handleSymmetricToggle (handleSymPanelEdit
        (handleSymmetricToggle demoState) ("p") (ControlVal.num 5))).outPanel
      = [(("p"), ControlVal.num 1)] ∧
    (handleSymPanelEdit (handleSymmetricToggle demoState) ("p") (ControlVal.num 5)).symPanel
      = [(("p"), ControlVal.num 5)] ∧
    ControlVal.num (1 : ℚ) ≠ ControlVal.num 5 := by
  refine ⟨rfl, rfl, rfl, ?_⟩
  decide

/-- C2 (amended): enabling Symmetric, editing the mirrored panel, then
disabling Symmetric re-renders both independent panels from the selected
definition defaults; the mirrored value is not propagated back, so the
panels show the edited value only when it coincides with the default. -/
theorem C2_disable_rerenders_defaults (st : AppState) (name : String) (q : ℚ)
    (h : st.symmetricChecked = false) :
    (handleSymmetricToggle (handleSymPanelEdit
        (handleSymmetricToggle st) name (ControlVal.num q))).inPanel
      = renderParamsFor st.opts.capacitor_couplings st.inSel ∧
    (handleSymmetricToggle (handleSymPanelEdit
        (handleSymmetricToggle st) name (ControlVal.num q))).outPanel
      = renderParamsFor st.opts.capacitor_couplings st.outSel := by
  simp [handleSymmetricToggle, handleSymPanelEdit, h]

/-- Witness for C2 (amended) at `demoState`, editing `p` to 5. -/
theorem C2_disable_rerenders_defaults_witness :
    (handleSymmetricToggle (handleSymPanelEdit
        (handleSymmetricToggle demoState) ("p") (ControlVal.num 5))).inPanel
      = renderParamsFor demoState.opts.capacitor_couplings demoState.inSel ∧
    (handleSymmetricToggle (handleSymPanelEdit
        (handleSymmetricToggle demoState) ("p") (ControlVal.num 5))).outPanel
      = renderParamsFor demoState.opts.capacitor_couplings demoState.outSel :=
  C2_disable_rerenders_defaults demoState ("p") 5 rfl

/-- State whose input panel holds one control with empty text content. -/
def C3state : AppState :=
  { demoState with inPanel := [(("p"), ControlVal.empty)] }

/-- C3 counterexample: a control that is empty at request-build time
contributes `null` (`none`) to the payload, not the neutral value 0 —
the payload does contain `null`, falsifying the claim at this input. -/
theorem C3_counterexample :
    (buildSnapshot C3state).1.input_coupling_params = [(("p"), (none : Option ℚ))] ∧
    [(("p"), (none : Option ℚ))] ≠ [(("p"), some (0 : ℚ))] := by
  refine ⟨rfl, ?_⟩
  decide

/-- C3 (amended): `collectParams` sends an empty control to `null`
(`none`) and a numeric control to its numeric value; in particular no
`NaN` can appear (every non-null entry is a rational value read from a
control). -/
theorem C3_empty_becomes_null (panel : Panel) (name : String) :
    ((name, ControlVal.empty) ∈ panel →
       (name, (none : Option ℚ)) ∈ collectParams panel) ∧
    (∀ q : ℚ, (name, ControlVal.num q) ∈ panel →
       (name, some q) ∈ collectParams panel) := by
  constructor
  · intro h
    simpa [collectParams] using
      List.mem_map_of_mem (fun item => ((item : String × ControlVal).1,
        match item.2 with
        | ControlVal.empty => (none : Option ℚ)
        | ControlVal.num q => some q)) h
  · intro q h
    simpa [collectParams] using
      List.mem_map_of_mem (fun item => ((item : String × ControlVal).1,
        match item.2 with
        | ControlVal.empty => (none : Option ℚ)
        | ControlVal.num q => some q)) h

/-- Witness for C3 (amended) on a two-control panel. -/
theorem C3_empty_becomes_null_witness :
    ((("p"), (none : Option ℚ))
        ∈ collectParams [(("p"), ControlVal.empty), (("q"), ControlVal.num 7)]) ∧
    ((("q"), some (7 : ℚ))
        ∈ collectParams [(("p"), ControlVal.empty), (("q"), ControlVal.num 7)]) :=
  ⟨(C3_empty_becomes_null [(("p"), ControlVal.empty), (("q"), ControlVal.num 7)] ("p")).1
      (by decide),
   (C3_empty_becomes_null [(("p"), ControlVal.empty), (("q"), ControlVal.num 7)] ("q")).2
      7 (by decide)⟩

/-- `_computeRange` always reports the (defaulted) definition default. -/
lemma computeRange_default (defn : Option ParamDefn) :
    (_computeRange defn).default = defnDefault defn := by
  cases hs : defnStep defn <;> simp [_computeRange, hs]

/-- When `min` or `max` is absent, the bounds are the heuristic ones. -/
lemma computeRange_bounds (defn : Option ParamDefn)
    (h : defnMin defn = none ∨ defnMax defn = none) :
    (_computeRange defn).min = (computeBounds (defnDefault defn)).1 ∧
    (_computeRange defn).max = (computeBounds (defnDefault defn)).2 := by
  rcases h with hm | hM
  · constructor <;> simp [_computeRange, hm]
  · cases hm2 : defnMin defn <;> constructor <;> simp [_computeRange, hm2, hM]

/-- Zero default: the fixed unit range. -/
lemma computeBounds_zero : computeBounds 0 = (-1, 1) := by
  simp [computeBounds]

/-- Positive default. -/
lemma computeBounds_pos (d : ℚ) (hd : 0 < d) :
    computeBounds d = (max (d * (1 / 100)) (d * (1 / 2)), d * (3 / 2)) := by
  rw [computeBounds, if_neg hd.ne', if_pos hd, jsMax_eq_max]

/-- Negative default: the raw formula already gives an ascending pair, so
the swap guard does not fire. -/
lemma computeBounds_neg (d : ℚ) (hd : d < 0) :
    computeBounds d = (d * (3 / 2), d * (1 / 2)) := by
  have h3 : ¬ (d * (3 / 2) > d * (1 / 2)) := by nlinarith
  rw [computeBounds, if_neg hd.ne, if_neg (not_lt.mpr hd.le)]
  simp only [h3, if_false]

/-- When `step` is absent or zero, `_computeRange` falls back to the step
heuristic over the final bounds. -/
lemma computeRange_step_eq (defn : Option ParamDefn)
    (h : defnStep defn = none ∨ defnStep defn = some 0) :
    (_computeRange defn).step
      = computeStep (defnDefault defn) (_computeRange defn).min (_computeRange defn).max := by
  rcases h with hs | hs <;> simp [_computeRange, hs]

/-- Zero-span step fallback: `|d|/100`, or `1e-6` when that is zero. -/
lemma computeStep_spanZero (d mn mx : ℚ) (h : |mx - mn| = 0) :
    computeStep d mn mx = if d = 0 then 1 / 1000000 else |d| / 100 := by
  rw [computeStep]
  simp only [jsAbs_eq_abs, h, if_true, reduceIte]
  by_cases hd : d = 0
  · simp [hd]
  · have hpos : (0 : ℚ) < |d| / 100 := by positivity
    rw [if_neg hpos.ne', if_neg hd]

/-- Positive-span step: `span/100`, snapped to an integer of at least 1
when both bounds are mathematically integral and the raw step reaches 1. -/
lemma computeStep_spanPos (d mn mx : ℚ) (h : |mx - mn| ≠ 0) :
    computeStep d mn mx =
      (if mn.den = 1 ∧ mx.den = 1 ∧ 1 ≤ |mx - mn| / 100
       then max 1 (jsRound (|mx - mn| / 100)) else |mx - mn| / 100) := by
  rw [computeStep]
  have habs : |(|mx - mn| / 100)| = |mx - mn| / 100 := abs_of_nonneg (by positivity)
  simp only [jsAbs_eq_abs, jsMax_eq_max, h, if_false, reduceIte, habs]

/-- C4: the range inference is total (a total function by construction)
and follows the documented heuristic: with `min` or `max` absent the
bounds derive from the sign of the default (`0` gives `[-1,1]`; `d > 0`
gives `[max(0.01 d, 0.5 d), 1.5 d]`; `d < 0` gives the ascending pair
`[1.5 d, 0.5 d]`); with `step` absent or zero, a zero span gives
`|d|/100` (or `1e-6` when that vanishes) and a positive span gives
`span/100`, rounded to an integer floored at 1 exactly when both bounds
are integral and `span/100` is at least 1.  The concrete instances of the
claim (defaults 10, -10, 0, and the explicit `[0,200]` range with derived
integer step) are checked verbatim. -/
theorem C4_rangeInference (defn : Option ParamDefn) :
    ((defnMin defn = none ∨ defnMax defn = none) →
       ((defnDefault defn = 0 →
           (_computeRange defn).min = -1 ∧ (_computeRange defn).max = 1) ∧
        (0 < defnDefault defn →
           (_computeRange defn).min
             = max (defnDefault defn * (1 / 100)) (defnDefault defn * (1 / 2)) ∧
           (_computeRange defn).max = defnDefault defn * (3 / 2)) ∧
        (defnDefault defn < 0 →
           (_computeRange defn).min = defnDefault defn * (3 / 2) ∧
           (_computeRange defn).max = defnDefault defn * (1 / 2) ∧
           (_computeRange defn).min ≤ (_computeRange defn).max))) ∧
    ((defnStep defn = none ∨ defnStep defn = some 0) →
       ((|(_computeRange defn).max - (_computeRange defn).min| = 0 →
           (_computeRange defn).step
             = if defnDefault defn = 0 then 1 / 1000000 else |defnDefault defn| / 100) ∧
        (|(_computeRange defn).max - (_computeRange defn).min| ≠ 0 →
           (_computeRange defn).step
             = (if (_computeRange defn).min.den = 1 ∧ (_computeRange defn).max.den = 1 ∧
                   1 ≤ |(_computeRange defn).max - (_computeRange defn).min| / 100
                then max 1 (jsRound
                       (|(_computeRange defn).max - (_computeRange defn).min| / 100))
                else |(_computeRange defn).max - (_computeRange defn).min| / 100)))) ∧
    _computeRange (some { default := some 10 })
      = { min := 5, max := 15, step := 1 / 10, default := 10 } ∧
    _computeRange (some { default := some (-10) })
      = { min := -15, max := -5, step := 1 / 10, default := -10 } ∧
    _computeRange (some { default := some 0 })
      = { min := -1, max := 1, step := 1 / 50, default := 0 } ∧
    _computeRange (some { default := some 100, min := some 0, max := some 200 })
      = { min := 0, max := 200, step := 2, default := 100 } := by
  have hr2 : jsRound 2 = 2 := by
    have h52 : ⌊(5 : ℚ) / 2⌋ = 2 := by
      rw [Int.floor_eq_iff]
      norm_num
    rw [jsRound, show (2 : ℚ) + 1 / 2 = 5 / 2 by norm_num, h52]
    norm_num
  refine ⟨?_, ?_, ?_, ?_, ?_, ?_⟩
  case refine_3 =>
    norm_num [_computeRange, defnMin, defnMax, defnStep, defnDefault, computeBounds,
      computeStep, jsMax, jsAbs, RangeSpec.mk.injEq]
  case refine_4 =>
    norm_num [_computeRange, defnMin, defnMax, defnStep, defnDefault, computeBounds,
      computeStep, jsMax, jsAbs, RangeSpec.mk.injEq]
  case refine_5 =>
    norm_num [_computeRange, defnMin, defnMax, defnStep, defnDefault, computeBounds,
      computeStep, jsMax, jsAbs, RangeSpec.mk.injEq]
  case refine_6 =>
    norm_num [_computeRange, defnMin, defnMax, defnStep, defnDefault, computeBounds,
      computeStep, jsMax, jsAbs, hr2, RangeSpec.mk.injEq]
  · intro h
    obtain ⟨h1, h2⟩ := computeRange_bounds defn h
    refine ⟨?_, ?_, ?_⟩
    · intro hd
      rw [h1, h2, hd, computeBounds_zero]
      exact ⟨rfl, rfl⟩
    · intro hd
      rw [h1, h2, computeBounds_pos _ hd]
      exact ⟨rfl, rfl⟩
    · intro hd
      rw [h1, h2, computeBounds_neg _ hd]
      exact ⟨rfl, rfl, by nlinarith⟩
  · intro h
    have hstep := computeRange_step_eq defn h
    constructor
    · intro hspan
      rw [hstep, computeStep_spanZero _ _ _ hspan]
    · intro hspan
      rw [hstep, computeStep_spanPos _ _ _ hspan]

/-- Witness for C4 at a definition with absent bounds and default 10, and
at one with a zero span. -/
theorem C4_rangeInference_witness :
    ((_computeRange (some { default := some 10 })).min = max (10 * (1 / 100) : ℚ) (10 * (1 / 2)) ∧
     (_computeRange (some { default := some 10 })).max = (10 : ℚ) * (3 / 2)) ∧
    (_computeRange (some { default := some 10, min := some 3, max := some 3 })).step
      = (10 : ℚ) / 100 := by
  constructor
  · exact ((C4_rangeInference (some { default := some 10 })).1 (Or.inl rfl)).2.1
      (by norm_num [defnDefault])
  · have hspan : |(_computeRange (some { default := some 10, min := some 3, max := some 3 })).max
        - (_computeRange (some { default := some 10, min := some 3, max := some 3 })).min| = 0 := by
      rw [show (_computeRange (some { default := some 10, min := some 3, max := some 3 })).max
            = 3 from rfl,
          show (_computeRange (some { default := some 10, min := some 3, max := some 3 })).min
            = 3 from rfl]
      norm_num
    have h := ((C4_rangeInference (some { default := some 10, min := some 3, max := some 3 })).2.1
      (Or.inl rfl)).1 hspan
    rw [h, show defnDefault (some { default := some 10, min := some 3, max := some 3 }) = 10
          from rfl,
        if_neg (by norm_num : (10 : ℚ) ≠ 0), abs_of_nonneg (by norm_num : (0 : ℚ) ≤ 10)]

/-- Inside a burst, the deadline scheduled one window after a notification
never fires before the next notification, so only the last scheduled
action survives; the eventual fire is one window after the last
notification and snapshots the state current at that moment. -/
lemma runDebounce_burst {α β : Type} (wait : Nat) (fn : α → β) :
    ∀ (rest : List (Nat × α)) (t : Nat) (v : α),
      burstB wait ((t, v) :: rest) = true →
      runDebounce wait fn rest (some (t + wait)) v
        = [((rest.getLastD (t, v)).1 + wait, fn (rest.getLastD (t, v)).2)] := by
  intro rest
  induction rest with
  | nil => intro t v _; rfl
  | cons hd tl ih =>
    intro t v h
    obtain ⟨t2, v2⟩ := hd
    have h1 : t < t2 ∧ t2 < t + wait ∧ burstB wait ((t2, v2) :: tl) = true := by
      simpa [burstB, Bool.and_eq_true, decide_eq_true_eq, and_assoc] using h
    have hnofire : ¬ t + wait ≤ t2 := by omega
    simp only [runDebounce, hnofire, if_false, reduceIte, List.getLastD_cons]
    exact ih t2 v2 h1.2.2

/-- C5: a burst of notifications, each arriving strictly less than the
250-unit quiescence window after the previous one, produces exactly one
fire, one window after the last notification, and the fired action is
applied to the state current at fire time — the state carried by the last
notification of the burst. -/
theorem C5_debounce_single_fire {α β : Type} (fn : α → β) (events : List (Nat × α))
    (t : Nat) (v : α) (init : α)
    (h : burstB 250 ((t, v) :: events) = true) :
    runDebounce 250 fn ((t, v) :: events) none init
      = [((events.getLastD (t, v)).1 + 250, fn (events.getLastD (t, v)).2)] := by
  simp only [runDebounce]
  exact runDebounce_burst 250 fn events t v h

/-- Witness for C5: three edits at times 0, 100, 200 (gaps below 250)
produce the single request at time 450 carrying the third value. -/
theorem C5_debounce_single_fire_witness :
    runDebounce 250 (fun q : ℚ => q) [(0, 1), (100, 2), (200, 3)] none 0
      = [(450, (3 : ℚ))] := by
  have h := C5_debounce_single_fire (fun q : ℚ => q) [(100, 2), (200, 3)] 0 1 0 (by decide)
  simpa using h

/-- C6: while Symmetric is active, the payload carries the symmetric
selector key as both coupling keys, and the same parameter values —
collected from the mirrored symmetric panel — for both coupling slots. -/
theorem C6_symmetric_request (st : AppState) (h : st.symmetricChecked = true) :
    (buildSnapshot st).1.input_coupling = st.symSel ∧
    (buildSnapshot st).1.output_coupling = st.symSel ∧
    (buildSnapshot st).1.input_coupling_params = collectParams st.symPanel ∧
    (buildSnapshot st).1.output_coupling_params = collectParams st.symPanel := by
  simp [buildSnapshot, h]

/-- Witness for C6 at a concrete symmetric state. -/
theorem C6_symmetric_request_witness :
    (buildSnapshot { demoState with symmetricChecked := true }).1.input_coupling
      = { demoState with symmetricChecked := true }.symSel ∧
    (buildSnapshot { demoState with symmetricChecked := true }).1.output_coupling
      = { demoState with symmetricChecked := true }.symSel ∧
    (buildSnapshot { demoState with symmetricChecked := true }).1.input_coupling_params
      = collectParams { demoState with symmetricChecked := true }.symPanel ∧
    (buildSnapshot { demoState with symmetricChecked := true }).1.output_coupling_params
      = collectParams { demoState with symmetricChecked := true }.symPanel :=
  C6_symmetric_request { demoState with symmetricChecked := true } rfl

/-- C7: two saves with no intervening clear persist exactly 2 traces; the
next lorentzian render draws the persisted traces plus the live one;
clear empties the persisted list; and no selection change, snapshot build
or response application touches the persisted list. -/
theorem C7_saved_traces (st : AppState) (tr : Trace) (data : SimData) (pd : PlotData)
    (hfind : st.plotDivData.find? (fun t => t.name == ("Current")) = some tr)
    (hempty : st.lorentzianTraces = [])
    (hplot : st.currentPlotType = ("lorentzian"))
    (herr : data.error = none)
    (hpd : data.plot_data = some pd) :
    (handleSaveClick (handleSaveClick st)).lorentzianTraces.length = 2 ∧
    (applyResponse (handleSaveClick (handleSaveClick st)) (FetchResult.ok data)).plotDivData
      = (handleSaveClick (handleSaveClick st)).lorentzianTraces ++ [mkCurrentTrace pd] ∧
    (handleClearClick st).lorentzianTraces = [] ∧
    (∀ k, (handleTSelectChange st k).lorentzianTraces = st.lorentzianTraces) ∧
    (∀ k, (handleInSelectChange st k).lorentzianTraces = st.lorentzianTraces) ∧
    (∀ k, (handleOutSelectChange st k).lorentzianTraces = st.lorentzianTraces) ∧
    (∀ k, (handleSymSelectChange st k).lorentzianTraces = st.lorentzianTraces) ∧
    (∀ k, (handleSSelectChange st k).lorentzianTraces = st.lorentzianTraces) ∧
    (handleSymmetricToggle st).lorentzianTraces = st.lorentzianTraces ∧
    (buildSnapshot st).2.lorentzianTraces = st.lorentzianTraces ∧
    (∀ r, (applyResponse st r).lorentzianTraces = st.lorentzianTraces) := by
  refine ⟨?_, ?_, rfl, fun k => rfl, ?_, ?_, fun k => rfl, fun k => rfl, ?_, ?_, ?_⟩
  · simp [handleSaveClick, hfind, hempty]
  · simp [handleSaveClick, hfind, hempty, applyResponse, jsTruthyStr, herr, hpd, hplot]
  · intro k
    by_cases hs : st.symmetricChecked <;> simp [handleInSelectChange, hs]
  · intro k
    by_cases hs : st.symmetricChecked <;> simp [handleOutSelectChange, hs]
  · by_cases hs : st.symmetricChecked <;> simp [handleSymmetricToggle, hs]
  · by_cases hs : st.symmetricChecked <;> simp [buildSnapshot, hs]
  · intro r
    rcases r with _ | data2
    · rfl
    · cases he : jsTruthyStr data2.error <;> simp [applyResponse, he]

/-- Witness for C7: a state whose plot holds a live trace, an empty saved
list, and a successful lorentzian response. -/
theorem C7_saved_traces_witness :
    (handleSaveClick (handleSaveClick
        { demoState with plotDivData := [{ name := ("Current"), x := [1], y := [2] }] }
      )).lorentzianTraces.length = 2 ∧
    (applyResponse (handleSaveClick (handleSaveClick
        { demoState with plotDivData := [{ name := ("Current"), x := [1], y := [2] }] }))
        (FetchResult.ok { plot_data := some { x := [1], y := [3],
                                              x_label := ("f"), y_label := ("s") } })).plotDivData
      = (handleSaveClick (handleSaveClick
          { demoState with plotDivData := [{ name := ("Current"), x := [1], y := [2] }] }
        )).lorentzianTraces
          ++ [mkCurrentTrace { x := [1], y := [3], x_label := ("f"), y_label := ("s") }] ∧
    (handleClearClick
        { demoState with plotDivData := [{ name := ("Current"), x := [1], y := [2] }] }
      ).lorentzianTraces = [] := by
  have h := C7_saved_traces
    { demoState with plotDivData := [{ name := ("Current"), x := [1], y := [2] }] }
    { name := ("Current"), x := [1], y := [2] }
    { plot_data := some { x := [1], y := [3], x_label := ("f"), y_label := ("s") } }
    { x := [1], y := [3], x_label := ("f"), y_label := ("s") }
    (by decide) rfl rfl rfl rfl
  exact ⟨h.1, h.2.1, h.2.2.1⟩

/-- A state with a previously displayed scalar and plot trace. -/
def C8state : AppState :=
  { demoState with display := { noDisplay with w1 := some 5 },
                   plotDivData := [{ name := ("Current"), x := [1], y := [2] }] }

/-- C8 counterexample: the guard is `if (data.error)`, a truthiness test,
so a response whose error field is the empty string falls through: the
previously displayed scalar is overwritten with the placeholder and the
plot trace list is replaced — the state is NOT left unchanged, falsifying
the claim (which ranges over every response containing an error field) at
this input. -/
theorem C8_counterexample :
    (applyResponse C8state (FetchResult.ok { error := some ("") })).display.w1 = none ∧
    C8state.display.w1 = some 5 ∧
    (applyResponse C8state (FetchResult.ok { error := some ("") })).plotDivData = [] ∧
    C8state.plotDivData = [{ name := ("Current"), x := [1], y := [2] }] ∧
    applyResponse C8state (FetchResult.ok { error := some ("") }) ≠ C8state := by
  refine ⟨rfl, rfl, rfl, rfl, fun h => ?_⟩
  have h2 : (applyResponse C8state (FetchResult.ok { error := some ("") })).display.w1
      = C8state.display.w1 := by rw [h]
  exact Option.noConfusion h2

/-- C8 (amended): a transport-level failure, and a response whose error
field is truthy (a non-empty string), are both only logged: the entire
state — scalars, plot, getters — is left exactly as it was, and nothing
is surfaced to the user.  (A falsy `error: ""` is treated as no error and
the response is reconciled normally.) -/
theorem C8_truthy_failure_leaves_state_unchanged (st : AppState) (data : SimData)
    (e : String) (herr : data.error = some e) (hne : e ≠ ("")) :
    applyResponse st FetchResult.fail = st ∧
    applyResponse st (FetchResult.ok data) = st := by
  refine ⟨rfl, ?_⟩
  simp [applyResponse, jsTruthyStr, herr, hne]

/-- Witness for C8 (amended) at `demoState` with a concrete error body. -/
theorem C8_truthy_failure_leaves_state_unchanged_witness :
    applyResponse demoState FetchResult.fail = demoState ∧
    applyResponse demoState (FetchResult.ok { error := some ("boom") }) = demoState :=
  C8_truthy_failure_leaves_state_unchanged demoState { error := some ("boom") } ("boom")
    rfl (by decide)

/-- C9: every input to the mode-number control yields an integer clamped
into [1, 10] (non-numeric input falls back to 1), the slider path stays in
[1, 10] as well, and with the control content so maintained the `n` sent
in a simulation request equals it and lies in [1, 10]. -/
theorem C9_mode_clamped (st : AppState) (parsed : Option Int) (sliderVal : Int) (m : Int)
    (hm : st.modeVal = some m) (h1 : 1 ≤ m) (h2 : m ≤ 10) :
    ((handleModeNumberInput st parsed).modeVal = some (clamp1to10 (parseIntOr1 parsed)) ∧
     1 ≤ clamp1to10 (parseIntOr1 parsed) ∧ clamp1to10 (parseIntOr1 parsed) ≤ 10) ∧
    ((handleModeRangeInput st sliderVal).modeVal = some (modeSliderClamp sliderVal) ∧
     1 ≤ modeSliderClamp sliderVal ∧ modeSliderClamp sliderVal ≤ 10) ∧
    ((buildSnapshot st).1.n = m ∧
     1 ≤ (buildSnapshot st).1.n ∧ (buildSnapshot st).1.n ≤ 10) := by
  have hn : (buildSnapshot st).1.n = m := by
    have hm0 : ¬ m = 0 := by omega
    by_cases hs : st.symmetricChecked <;>
      simp [buildSnapshot, hs, parseIntOr1, hm, hm0]
  refine ⟨⟨rfl, ?_, ?_⟩, ⟨rfl, ?_, ?_⟩, hn, ?_, ?_⟩
  · rw [clamp1to10]
    split_ifs <;> omega
  · rw [clamp1to10]
    split_ifs <;> omega
  · exact le_max_left 1 _
  · exact max_le (by norm_num) (min_le_left 10 _)
  · omega
  · omega

/-- Witness for C9: non-numeric input, an out-of-range slider value, and
the request built from `demoState` (mode content 1). -/
theorem C9_mode_clamped_witness :
    ((handleModeNumberInput demoState none).modeVal
        = some (clamp1to10 (parseIntOr1 none)) ∧
     1 ≤ clamp1to10 (parseIntOr1 none) ∧ clamp1to10 (parseIntOr1 none) ≤ 10) ∧
    ((handleModeRangeInput demoState 42).modeVal = some (modeSliderClamp 42) ∧
     1 ≤ modeSliderClamp 42 ∧ modeSliderClamp 42 ≤ 10) ∧
    ((buildSnapshot demoState).1.n = 1 ∧
     1 ≤ (buildSnapshot demoState).1.n ∧ (buildSnapshot demoState).1.n ≤ 10) :=
  C9_mode_clamped demoState none 42 1 rfl (by omega) (by omega)

/-- C10: firing the debounced action while the symmetric checkbox is
checked overwrites the two hidden coupling selectors with the symmetric
key and changes nothing else; while unchecked, building the snapshot
changes no state at all. -/
theorem C10_snapshot_side_effect (st : AppState) :
    (st.symmetricChecked = true →
       (buildSnapshot st).2 = { st with inSel := st.symSel, outSel := st.symSel }) ∧
    (st.symmetricChecked = false → (buildSnapshot st).2 = st) := by
  constructor <;> intro h <;> simp [buildSnapshot, h]

/-- Witness for C10 in both checkbox positions. -/
theorem C10_snapshot_side_effect_witness :
    (buildSnapshot { demoState with symmetricChecked := true }).2
      = { { demoState with symmetricChecked := true } with
          inSel := { demoState with symmetricChecked := true }.symSel,
          outSel := { demoState with symmetricChecked := true }.symSel } ∧
    (buildSnapshot demoState).2 = demoState :=
  ⟨(C10_snapshot_side_effect { demoState with symmetricChecked := true }).1 rfl,
   (C10_snapshot_side_effect demoState).2 rfl⟩

end CPW
